import Mathlib

/-!
Verification of the SuMD multi-sampling controller
(`scripts/sumd_multisampling.py`) against its natural-language
specification.  The Python functions relevant to the claims are shallowly
embedded below: distances are rationals extended with an infinity point
(Python's `float('inf')`), external stages (energy minimization, MD
segments, structure-file parsing) are supplied as oracles recording
whether the stage raised and, if not, the distance measured on its output,
and the `main` convergence loop is modelled with explicit tracking of
which Python local variables have been assigned (so that
`UnboundLocalError` is observable).
-/

namespace SuMD

/-- A distance value as handled by the Python code: either a finite number
(modelled as a rational) or `float('inf')`. -/
inductive EDist (α : Type) where
  | val (q : α)
  | inf
deriving DecidableEq

/-- Comparison `a <= b` on distances, as Python compares floats with `inf`. -/
def EDist.le : EDist ℚ → EDist ℚ → Bool
  | _, .inf => true
  | .inf, .val _ => false
  | .val a, .val b => decide (a ≤ b)

/-- Comparison `a < b` on distances, as Python compares floats with `inf`. -/
def EDist.lt : EDist ℚ → EDist ℚ → Bool
  | .inf, _ => false
  | .val _, .inf => true
  | .val a, .val b => decide (a < b)

/-- Multiplication by 10, the nm-to-Angstrom conversion the code applies
(`initial_distance * 10`); infinity is preserved, as for floats. -/
def EDist.scale10 : EDist ℚ → EDist ℚ
  | .val q => .val (q * 10)
  | .inf => .inf

theorem edist_le_refl (a : EDist ℚ) : a.le a = true := by
  cases a <;> simp [EDist.le]

theorem edist_le_total (a b : EDist ℚ) : a.le b = true ∨ b.le a = true := by
  cases a <;> cases b <;> simp [EDist.le]
  exact le_total _ _

theorem edist_le_trans {a b c : EDist ℚ} (h1 : a.le b = true) (h2 : b.le c = true) :
    a.le c = true := by
  cases a <;> cases b <;> cases c <;> simp [EDist.le] at * <;> exact h1.trans h2

theorem edist_lt_eq_not_le (a b : EDist ℚ) : a.lt b = !(b.le a) := by
  cases a <;> cases b <;> simp [EDist.lt, EDist.le]
  rw [← decide_not]
  exact decide_eq_decide.mpr not_le.symm

theorem edist_lt_imp_le {a b : EDist ℚ} (h : a.lt b = true) : a.le b = true := by
  rcases edist_le_total a b with h' | h'
  · exact h'
  · rw [edist_lt_eq_not_le, h', Bool.not_true] at h
    exact absurd h (by simp)

/-- The `simulation_type` field of a sample result dict:
`'EM_only'`, `'EM+MD'` or `'failed'`. -/
inductive SimType where
  | EM_only
  | EMplusMD
  | failed
deriving DecidableEq

/-- The result dict returned by `run_single_sample_worker`, with the fields the
code puts in it (the `sample_dir` string is folded into the structure paths). -/
structure SampleResult where
  sample_id : ℕ
  initial_distance : EDist ℚ
  em_distance : EDist ℚ
  md_distance : Option (EDist ℚ)
  final_distance : EDist ℚ
  final_structure : Option String
  trajectory : Option String
  simulation_type : SimType
  error : Option String
deriving DecidableEq

/-- One step of CPython's `min(..., key=...)` loop: the running best is
replaced only on a strict improvement of the key. -/
def pyMinStep (key : α → EDist ℚ) (acc y : α) : α :=
  if (key y).lt (key acc) then y else acc

/-- CPython's `min(l, key=key)`: `none` on the empty list (where Python would
raise `ValueError`), otherwise a fold keeping the first element attaining the
minimum key. -/
def pyMinBy (key : α → EDist ℚ) : List α → Option α
  | [] => none
  | x :: xs => some (xs.foldl (pyMinStep key) x)

/-- The filter `[r for r in sample_results if r['final_structure'] is not None]`
from `run_multi_sample_iteration`. -/
def validResults (l : List SampleResult) : List SampleResult :=
  l.filter (fun r => r.final_structure.isSome)

/-- The selection `min(valid_results, key=lambda x: x['final_distance'])` from
`run_multi_sample_iteration` (this is the operation the spec calls
`select_best`); `none` exactly when every sample is failed. -/
def select_best (l : List SampleResult) : Option SampleResult :=
  pyMinBy (fun r => r.final_distance) (validResults l)

/-- The tail of `run_multi_sample_iteration` after the per-sample results have
been collected: filter out failed samples; if none are left return
`(None, float('inf'))`; otherwise return the best sample's
`(final_structure, final_distance)` pair. -/
def run_multi_sample_iteration_post (l : List SampleResult) :
    Option String × EDist ℚ :=
  match select_best l with
  | none => (none, .inf)
  | some b => (b.final_structure, b.final_distance)

/-- Outcome of one external stage invocation as observed by the worker:
either the stage completed and the distance measured on its output structure
is available, or the stage raised an exception with a message. -/
inductive StageRes (α : Type) where
  | ok (a : α)
  | raised (msg : String)
deriving DecidableEq

/-- The worker's external interactions, supplied as an oracle: the initial
distance computation on the copied input structure (which may raise, e.g. on a
missing file), the energy-minimization stage followed by the distance on
`em.gro`, and the MD stage followed by the distance on `md.gro`. -/
structure WorkerEnv where
  initCalc : StageRes (EDist ℚ)
  emRun : StageRes (EDist ℚ)
  mdRun : StageRes (EDist ℚ)
deriving DecidableEq

/-- The worker's returned result together with the observation of whether
`run_md_simulation_process` was invoked during execution. -/
structure WorkerOutcome where
  result : SampleResult
  mdInvoked : Bool
deriving DecidableEq

/-- The per-sample working directory name `sample_{sample_id}`. -/
def sampleDirOf (id : ℕ) : String :=
  "sample_" ++ toString id

/-- The dict built in the `except` clause of `run_single_sample_worker`:
every distance `float('inf')`, `final_structure` `None`,
`simulation_type` `'failed'`, and the exception message in `error`. -/
def failedResult (id : ℕ) (e : String) : SampleResult :=
  { sample_id := id
    initial_distance := .inf
    em_distance := .inf
    md_distance := some .inf
    final_distance := .inf
    final_structure := none
    trajectory := none
    simulation_type := .failed
    error := some e }

/-- Embedding of `run_single_sample_worker`: compute the initial distance,
always run energy minimization, then run MD exactly when
`initial_distance * 10 <= distance_threshold_angstrom`; any exception along
the way is caught and converted to the failed dict. -/
def run_single_sample_worker (sample_id : ℕ) (env : WorkerEnv)
    (distance_threshold_angstrom : ℚ) : WorkerOutcome :=
  match env.initCalc with
  | .raised e => ⟨failedResult sample_id e, false⟩
  | .ok initial_distance =>
    match env.emRun with
    | .raised e => ⟨failedResult sample_id e, false⟩
    | .ok em_distance =>
      if initial_distance.scale10.le (.val distance_threshold_angstrom) then
        match env.mdRun with
        | .raised e => ⟨failedResult sample_id e, true⟩
        | .ok md_distance =>
          ⟨{ sample_id := sample_id
             initial_distance := initial_distance
             em_distance := em_distance
             md_distance := some md_distance
             final_distance := md_distance
             final_structure := some (sampleDirOf sample_id ++ "/md.gro")
             trajectory := some (sampleDirOf sample_id ++ "/md.xtc")
             simulation_type := .EMplusMD
             error := none }, true⟩
      else
        ⟨{ sample_id := sample_id
           initial_distance := initial_distance
           em_distance := em_distance
           md_distance := none
           final_distance := em_distance
           final_structure := some (sampleDirOf sample_id ++ "/em.gro")
           trajectory := none
           simulation_type := .EM_only
           error := none }, false⟩

/-- One atom record of a structure file: the chain identifier and the
coordinate triple in the file's native length unit. -/
structure Atom where
  chain : String
  x : ℚ
  y : ℚ
  z : ℚ
deriving DecidableEq

/-- The file-extension dispatch of `calculate_distance_from_structure`:
`.pdb`, `.gro`, or any other extension. -/
inductive StructFormat where
  | pdb
  | gro
  | other
deriving DecidableEq

/-- A structure file as the extractor sees it: a format tag and the list of
atom records. -/
structure StructureFile where
  format : StructFormat
  atoms : List Atom
deriving DecidableEq

/-- The atoms collected for `chain1`: the `if chain_id == chain1` branch of
the chain loop in `calculate_distance_from_structure`. -/
def chain1Atoms (s : StructureFile) (c1 : String) : List Atom :=
  s.atoms.filter (fun a => decide (a.chain = c1))

/-- The atoms collected for `chain2`: the `elif chain_id == chain2` branch,
which is reached only for chains that did not match `chain1`. -/
def chain2Atoms (s : StructureFile) (c1 c2 : String) : List Atom :=
  s.atoms.filter (fun a => decide (¬ a.chain = c1 ∧ a.chain = c2))

/-- Arithmetic mean of the x coordinates of a group (`np.mean(..., axis=0)`,
first component). -/
def meanX (l : List Atom) : ℚ :=
  (l.map Atom.x).sum / l.length

/-- Arithmetic mean of the y coordinates of a group. -/
def meanY (l : List Atom) : ℚ :=
  (l.map Atom.y).sum / l.length

/-- Arithmetic mean of the z coordinates of a group. -/
def meanZ (l : List Atom) : ℚ :=
  (l.map Atom.z).sum / l.length

/-- Squared Euclidean separation of the two group centers in the file's
native length unit (the quantity under the square root in
`np.linalg.norm(chain1_center - chain2_center)`). -/
def sqSep (s : StructureFile) (c1 c2 : String) : ℚ :=
  (meanX (chain1Atoms s c1) - meanX (chain2Atoms s c1 c2)) ^ 2
    + (meanY (chain1Atoms s c1) - meanY (chain2Atoms s c1 c2)) ^ 2
    + (meanZ (chain1Atoms s c1) - meanZ (chain2Atoms s c1 c2)) ^ 2

/-- Embedding of `calculate_distance_from_structure`.  For a `.pdb` file:
`float('inf')` when either atom group is empty, otherwise the Euclidean norm
of the difference of the two unweighted group centers divided by 10
(Angstroms to nm).  For a `.gro` file the code returns the hard-coded
placeholder `1.0` (its comment marks it as a temporary value).  Any other
extension yields `float('inf')`. -/
noncomputable def calculate_distance_from_structure (s : StructureFile)
    (c1 c2 : String) : EDist ℝ :=
  match s.format with
  | .pdb =>
    if (chain1Atoms s c1).isEmpty || (chain2Atoms s c1 c2).isEmpty then .inf
    else .val (Real.sqrt ((sqSep s c1 c2 : ℚ) : ℝ) / 10)
  | .gro => .val 1
  | .other => .inf

/-- The unweighted center of an atom group as a point of Euclidean 3-space,
for comparison with Mathlib's Euclidean distance. -/
noncomputable def groupCenter (l : List Atom) : EuclideanSpace ℝ (Fin 3) :=
  (WithLp.equiv 2 (Fin 3 → ℝ)).symm ![(meanX l : ℝ), (meanY l : ℝ), (meanZ l : ℝ)]

/-- The local variables of `main`'s iteration loop.  Python locals that may
be referenced before assignment (`best_structure`, `best_distance`,
`best_distance_angstrom`) are wrapped in `Option`, `none` meaning
"not yet assigned"; `calls` counts invocations of
`run_multi_sample_iteration`; `brokeOnNone` records an exit through the
`if best_structure is None: break` branch. -/
structure MainVars where
  current : String
  convergence : Bool
  best_structure : Option (Option String)
  best_distance : Option (EDist ℚ)
  best_distance_angstrom : Option (EDist ℚ)
  calls : ℕ
  brokeOnNone : Bool
deriving DecidableEq

/-- Embedding of the `for iteration in range(1, max_iterations + 1)` loop in
`main`.  `oracle` stands for `run_multi_sample_iteration` applied to the
current structure (returning the `(best_structure, best_distance)` pair),
`thr` is `args.distance_threshold` in nm, the first `ℕ` is the number of
remaining iterations and the second the current iteration index.  Note that
`current` is updated to the best structure only on the fall-through path:
both `break`s skip the update. -/
def mainLoop (oracle : ℕ → String → Option String × EDist ℚ) (thr : ℚ) :
    ℕ → ℕ → MainVars → MainVars
  | 0, _, v => v
  | fuel + 1, iter, v =>
    match oracle iter v.current with
    | (none, bd) =>
      { v with best_structure := some none, best_distance := some bd,
               calls := v.calls + 1, brokeOnNone := true }
    | (some s, bd) =>
      if bd.le (.val thr) then
        { v with best_structure := some (some s), best_distance := some bd,
                 best_distance_angstrom := some bd.scale10,
                 calls := v.calls + 1, convergence := true }
      else
        mainLoop oracle thr fuel (iter + 1)
          { v with current := s, best_structure := some (some s),
                   best_distance := some bd,
                   best_distance_angstrom := some bd.scale10,
                   calls := v.calls + 1 }

/-- `main`'s loop started from its initial state: `current_structure` is the
input file, `convergence` is `False`, and the per-iteration locals are
unassigned. -/
def mainRun (oracle : ℕ → String → Option String × EDist ℚ) (thr : ℚ)
    (maxIterations : ℕ) (init : String) : MainVars :=
  mainLoop oracle thr maxIterations 1
    { current := init, convergence := false, best_structure := none,
      best_distance := none, best_distance_angstrom := none,
      calls := 0, brokeOnNone := false }

/-- The specification's terminal states for the convergence controller. -/
inductive TermState where
  | CONVERGED
  | EXHAUSTED
  | ABORTED
deriving DecidableEq

/-- Classification of the loop's exit in the specification's terms: an exit
through the all-samples-failed `break` is ABORTED, an exit with
`convergence = True` is CONVERGED, and falling off the end of the range is
EXHAUSTED. -/
def termStateOf (v : MainVars) : TermState :=
  if v.brokeOnNone then .ABORTED
  else if v.convergence then .CONVERGED
  else .EXHAUSTED

/-- The data `main`'s final block prints (`SUMD_RESULT` line and final log
messages). -/
structure FinalReport where
  converged : Bool
  final_distance_angstrom : EDist ℚ
  final_distance : EDist ℚ
  final_structure : Option String
deriving DecidableEq

/-- Either a printed final report or a Python `UnboundLocalError` naming the
local that was referenced before assignment. -/
inductive ReportResult where
  | report (r : FinalReport)
  | unboundLocalError (varName : String)
deriving DecidableEq

/-- Embedding of `main`'s final block: both branches of
`if convergence: ... else: ...` interpolate `best_distance_angstrom` first,
then `best_distance` and `best_structure`; referencing any of them before
assignment raises `UnboundLocalError`. -/
def finalReport (v : MainVars) : ReportResult :=
  match v.best_distance_angstrom, v.best_distance, v.best_structure with
  | some a, some d, some s =>
    .report { converged := v.convergence, final_distance_angstrom := a,
              final_distance := d, final_structure := s }
  | none, _, _ => .unboundLocalError "best_distance_angstrom"
  | _, none, _ => .unboundLocalError "best_distance"
  | _, _, none => .unboundLocalError "best_structure"

/-- `main` end to end at the level of this model: run the iteration loop,
then produce the final report (or crash). -/
def sumd_main (oracle : ℕ → String → Option String × EDist ℚ) (thr : ℚ)
    (maxIterations : ℕ) (init : String) : ReportResult :=
  finalReport (mainRun oracle thr maxIterations init)

/-- Python tokens occurring on the two `return` lines of
`run_multi_sample_iteration` (line 560 and line 628 of
`scripts/sumd_multisampling.py`). -/
inductive PyTok where
  | kwReturn
  | name (s : String)
  | strLit (s : String)
  | lbrack
  | rbrack
  | comma
  | assign
  | lparen
  | rparen
deriving DecidableEq

/-- The token sequence of line 560 of `scripts/sumd_multisampling.py`:
the text reads `return best_result[STR], best_result[STR]_workers =
min(num_samples, cpu_count())` where both STR are quoted key strings; the
Python lexer glues `_workers` on as a NAME token directly after the closing
bracket. -/
def line560Toks : List PyTok :=
  [.kwReturn, .name "best_result", .lbrack, .strLit "final_structure", .rbrack,
   .comma, .name "best_result", .lbrack, .strLit "final_distance", .rbrack,
   .name "_workers", .assign, .name "min", .lparen, .name "num_samples",
   .comma, .name "cpu_count", .lparen, .rparen, .rparen]

/-- The token sequence of line 628 of `scripts/sumd_multisampling.py`, the
second copy of the return: `return best_result[STR], best_result[STR]`. -/
def line628Toks : List PyTok :=
  [.kwReturn, .name "best_result", .lbrack, .strLit "final_structure", .rbrack,
   .comma, .name "best_result", .lbrack, .strLit "final_distance", .rbrack]

/-- Consume a (possibly empty) run of Python subscript trailers
`[ STRING ]` after a primary expression. -/
def eatTrailers : List PyTok → List PyTok
  | .lbrack :: .strLit _ :: .rbrack :: rest => eatTrailers rest
  | rest => rest

/-- Parse one expression of the form `NAME [STRING]*`; `none` when the next
token cannot start such an expression. -/
def parseSubscripted : List PyTok → Option (List PyTok)
  | .name _ :: rest => some (eatTrailers rest)
  | _ => none

/-- After the first expression of a `return` statement: accept the end of
the line or `, expression` repeated.  Any other continuation (in particular
a NAME or an `=` directly after a closing bracket) is a Python
`SyntaxError`. -/
def parseReturnRest (fuel : ℕ) (ts : List PyTok) : Bool :=
  match fuel, ts with
  | _, [] => true
  | f + 1, .comma :: rest =>
    match parseSubscripted rest with
    | some rest2 => parseReturnRest f rest2
    | none => false
  | _, _ => false

/-- Decide whether a token line is a syntactically valid Python statement
`return e1, e2, ...` whose expressions are names with string subscripts —
the statement form the function's documented result requires. -/
def isValidReturnStmt (ts : List PyTok) : Bool :=
  match ts with
  | .kwReturn :: rest =>
    match parseSubscripted rest with
    | some rest2 => parseReturnRest rest2.length rest2
    | none => false
  | _ => false

/-- A successful EM-only sample with id 1 and final distance 1 nm, used to
exhibit tie-breaking. -/
def tieA : SampleResult :=
  { sample_id := 1, initial_distance := .val 6, em_distance := .val 1,
    md_distance := none, final_distance := .val 1,
    final_structure := some "sample_1/em.gro", trajectory := none,
    simulation_type := .EM_only, error := none }

/-- A successful EM-only sample with id 2 and the same final distance 1 nm
as `tieA`. -/
def tieB : SampleResult :=
  { sample_id := 2, initial_distance := .val 7, em_distance := .val 1,
    md_distance := none, final_distance := .val 1,
    final_structure := some "sample_2/em.gro", trajectory := none,
    simulation_type := .EM_only, error := none }

/-- A worker environment in which the initial distance is 0.3 nm (inside the
5 Angstrom gate), minimization succeeds, and the MD stage raises. -/
def mdFailEnv : WorkerEnv :=
  { initCalc := .ok (.val (3 / 10)), emRun := .ok (.val (2 / 10)),
    mdRun := .raised "mdrun error" }

/-- A `.gro` structure with the two chain centers 40 length units apart. -/
def groFortyApart : StructureFile :=
  { format := .gro, atoms := [⟨"A", 0, 0, 0⟩, ⟨"B", 40, 0, 0⟩] }

/-- A `.gro` structure with the two chain centers 80 length units apart. -/
def groEightyApart : StructureFile :=
  { format := .gro, atoms := [⟨"A", 0, 0, 0⟩, ⟨"B", 80, 0, 0⟩] }

/-- A `.pdb` structure with the two chain centers exactly 40 Angstroms
apart (the synthetic fixed-separation structure of the spec's unit test). -/
def pdbFortyApart : StructureFile :=
  { format := .pdb, atoms := [⟨"A", 0, 0, 0⟩, ⟨"B", 40, 0, 0⟩] }

/-- A `.pdb` structure that has atoms only on chain A, so that the group for
chain B resolves to zero atoms. -/
def emptyChainPdb : StructureFile :=
  { format := .pdb, atoms := [⟨"A", 0, 0, 0⟩] }

/-- A worker environment whose distance computations both return
`float('inf')` (as they do when an atom group is empty) and whose stages
succeed. -/
def infDistEnv : WorkerEnv :=
  { initCalc := .ok .inf, emRun := .ok .inf, mdRun := .ok (.val 1) }

/-- An iteration oracle whose batch always selects a best structure
`iter_best.gro` at distance 0.3 nm. -/
def convOracle : ℕ → String → Option String × EDist ℚ :=
  fun _ _ => (some "iter_best.gro", .val (3 / 10))

/-- A batch in which both samples raised and were converted to failed
results. -/
def allFailedBatch : List SampleResult :=
  [failedResult 1 "gmx grompp failed", failedResult 2 "gmx mdrun failed"]

/-- An iteration oracle that always delivers the all-failed batch. -/
def allFailOracle : ℕ → String → Option String × EDist ℚ :=
  fun _ _ => run_multi_sample_iteration_post allFailedBatch

/-- `main`'s loop state before the first iteration, for a run starting from
`init.gro`. -/
def initVars : MainVars :=
  { current := "init.gro", convergence := false, best_structure := none,
    best_distance := none, best_distance_angstrom := none, calls := 0,
    brokeOnNone := false }

/-- An iteration oracle whose batch always selects a best structure at
distance 2 nm (above any sub-nm convergence threshold). -/
def farOracle : ℕ → String → Option String × EDist ℚ :=
  fun _ _ => (some "far_best.gro", .val 2)

theorem edist_le_of_not_lt {a b : EDist ℚ} (h : a.lt b = false) : b.le a = true := by
  have h2 := edist_lt_eq_not_le a b
  rw [h] at h2
  cases hb : b.le a
  · rw [hb] at h2
    simp at h2
  · rfl

theorem pyMinFold_mem {α : Type} (key : α → EDist ℚ) (xs : List α) (x : α) :
    xs.foldl (pyMinStep key) x ∈ x :: xs := by
  induction xs generalizing x with
  | nil => simp
  | cons y ys ih =>
    simp only [List.foldl_cons]
    rcases List.mem_cons.mp (ih (pyMinStep key x y)) with h1 | h1
    · rw [h1]
      by_cases hlt : (key y).lt (key x) = true
      · simp [pyMinStep, hlt]
      · simp [pyMinStep, hlt]
    · exact List.mem_cons_of_mem _ (List.mem_cons_of_mem _ h1)

theorem pyMinFold_le {α : Type} (key : α → EDist ℚ) (xs : List α) (x : α) :
    ∀ y ∈ x :: xs, (key (xs.foldl (pyMinStep key) x)).le (key y) = true := by
  induction xs generalizing x with
  | nil =>
    intro y hy
    rw [List.mem_singleton] at hy
    subst hy
    simp [edist_le_refl]
  | cons z zs ih =>
    intro y hy
    simp only [List.foldl_cons]
    have hstep_le_x : (key (pyMinStep key x z)).le (key x) = true := by
      by_cases hlt : (key z).lt (key x) = true
      · simpa [pyMinStep, hlt] using edist_lt_imp_le hlt
      · simp [pyMinStep, hlt, edist_le_refl]
    have hstep_le_z : (key (pyMinStep key x z)).le (key z) = true := by
      by_cases hlt : (key z).lt (key x) = true
      · simp [pyMinStep, hlt, edist_le_refl]
      · have hle := edist_le_of_not_lt (Bool.not_eq_true _ |>.mp hlt)
        simpa [pyMinStep, hlt] using hle
    have hself := ih (pyMinStep key x z) (pyMinStep key x z) (List.mem_cons_self _ _)
    rcases List.mem_cons.mp hy with rfl | hy2
    · exact edist_le_trans hself hstep_le_x
    · rcases List.mem_cons.mp hy2 with rfl | hy3
      · exact edist_le_trans hself hstep_le_z
      · exact ih (pyMinStep key x z) y (List.mem_cons_of_mem _ hy3)

theorem pyMinFold_of_min {α : Type} (key : α → EDist ℚ) (xs : List α) (x : α)
    (h : ∀ y ∈ xs, (key x).le (key y) = true) :
    xs.foldl (pyMinStep key) x = x := by
  induction xs with
  | nil => rfl
  | cons z zs ih =>
    have hz := h z (List.mem_cons_self _ _)
    have hstep : pyMinStep key x z = x := by
      have hlt : (key z).lt (key x) = false := by
        rw [edist_lt_eq_not_le, hz, Bool.not_true]
      simp [pyMinStep, hlt]
    simp only [List.foldl_cons, hstep]
    exact ih (fun y hy => h y (List.mem_cons_of_mem _ hy))

theorem pyMinBy_mem_min {α : Type} (key : α → EDist ℚ) (l : List α) (r : α)
    (h : pyMinBy key l = some r) :
    r ∈ l ∧ ∀ x ∈ l, (key r).le (key x) = true := by
  cases l with
  | nil => simp [pyMinBy] at h
  | cons x xs =>
    simp only [pyMinBy, Option.some.injEq] at h
    subst h
    exact ⟨pyMinFold_mem key xs x, pyMinFold_le key xs x⟩

theorem pyMinBy_of_uniqueMin {α : Type} (key : α → EDist ℚ) (l : List α) (m : α)
    (hm : m ∈ l) (huniq : ∀ x ∈ l, x ≠ m → (key m).lt (key x) = true) :
    pyMinBy key l = some m := by
  cases l with
  | nil => simp at hm
  | cons x xs =>
    simp only [pyMinBy, Option.some.injEq]
    by_cases heq : xs.foldl (pyMinStep key) x = m
    · exact heq
    · exfalso
      have h1 := huniq _ (pyMinFold_mem key xs x) heq
      have h2 := pyMinFold_le key xs x m hm
      rw [edist_lt_eq_not_le, h2, Bool.not_true] at h1
      simp at h1

theorem gate_03_within_5A : ((EDist.val ((3 : ℚ) / 10)).scale10).le (EDist.val 5) = true := by
  simp only [EDist.scale10, EDist.le, decide_eq_true_eq]
  norm_num

theorem gate_08_outside_5A : ((EDist.val ((8 : ℚ) / 10)).scale10).le (EDist.val 5) = false := by
  simp only [EDist.scale10, EDist.le, decide_eq_false_iff_not]
  norm_num

theorem conv_03_within_05 : (EDist.val ((3 : ℚ) / 10)).le (EDist.val (5 / 10)) = true := by
  simp only [EDist.le, decide_eq_true_eq]
  norm_num

/-- C1 (counterexample): two non-failed samples tied at the minimum final
distance.  Supplied in the order `[tieB, tieA]` (sample 2 completing first)
the selection returns sample 2, not the smallest sample id, and the selected
result differs from the one selected when the same results arrive in the
order `[tieA, tieB]` — so the selection is not independent of completion
order and ties are not broken by smallest sample id. -/
theorem select_best_tie_order_dependent :
    select_best [tieB, tieA] = some tieB
    ∧ select_best [tieA, tieB] = some tieA
    ∧ tieA.sample_id = 1 ∧ tieB.sample_id = 2
    ∧ tieA.final_distance = tieB.final_distance
    ∧ tieA.simulation_type ≠ .failed ∧ tieB.simulation_type ≠ .failed
    ∧ select_best [tieB, tieA] ≠ select_best [tieA, tieB] := by
  decide

/-- C1 (amended): the selection picks a member of the non-failed results
attaining the minimal final distance; when a single result attains the
minimum the selection is independent of the order the results are supplied
in; a tie at the minimum resolves to the earliest-supplied result; and for
worker-produced results the code's `final_structure is not None` filter
coincides with "not FAILED". -/
theorem select_best_min_and_determinism :
    (∀ (l : List SampleResult) (r : SampleResult), select_best l = some r →
      r ∈ validResults l
        ∧ ∀ x ∈ validResults l, r.final_distance.le x.final_distance = true)
    ∧ (∀ (l1 l2 : List SampleResult) (m : SampleResult), l1.Perm l2 →
      m ∈ validResults l1 →
      (∀ x ∈ validResults l1, x ≠ m → m.final_distance.lt x.final_distance = true) →
      select_best l1 = some m ∧ select_best l2 = some m)
    ∧ (∀ (r : SampleResult) (l : List SampleResult), r.final_structure.isSome = true →
      (∀ x ∈ validResults l, r.final_distance.le x.final_distance = true) →
      select_best (r :: l) = some r)
    ∧ (∀ (id : ℕ) (env : WorkerEnv) (gate : ℚ),
      (run_single_sample_worker id env gate).result.final_structure = none
        ↔ (run_single_sample_worker id env gate).result.simulation_type = .failed) := by
  refine ⟨?_, ?_, ?_, ?_⟩
  · intro l r h
    exact pyMinBy_mem_min _ _ _ h
  · intro l1 l2 m hperm hm huniq
    have hpermValid : (validResults l1).Perm (validResults l2) := hperm.filter _
    constructor
    · exact pyMinBy_of_uniqueMin _ _ _ hm huniq
    · refine pyMinBy_of_uniqueMin _ _ _ (hpermValid.mem_iff.mp hm) ?_
      intro x hx hxm
      exact huniq x (hpermValid.mem_iff.mpr hx) hxm
  · intro r l hr hmin
    have hcons : validResults (r :: l) = r :: validResults l :=
      List.filter_cons_of_pos hr
    simp only [select_best, hcons, pyMinBy, Option.some.injEq]
    exact pyMinFold_of_min _ _ _ hmin
  · intro id env gate
    rcases env with ⟨i, e, m⟩
    cases i with
    | raised msg => simp [run_single_sample_worker, failedResult]
    | ok d0 =>
      cases e with
      | raised msg => simp [run_single_sample_worker, failedResult]
      | ok dem =>
        by_cases hg : d0.scale10.le (.val gate) = true
        · cases m with
          | raised msg => simp [run_single_sample_worker, failedResult, hg]
          | ok dmd => simp [run_single_sample_worker, failedResult, hg]
        · simp [run_single_sample_worker, failedResult, hg]

/-- C1 (witness): a concrete batch with one successful and one failed
sample: the successful sample, supplied first and minimal, is selected. -/
theorem select_best_min_and_determinism_witness :
    select_best [tieA, failedResult 3 "oom"] = some tieA :=
  select_best_min_and_determinism.2.2.1 tieA [failedResult 3 "oom"]
    (by decide) (by decide)

/-- C2: the statement immediately following the iteration-summary write in
`run_multi_sample_iteration` (line 560) is not a syntactically valid return
statement — a NAME token (`_workers`) is glued directly onto the closing
subscript bracket and an assignment is embedded in the line — whereas the
later duplicate of the return (line 628) is valid.  The module therefore
fails to parse, so the function never reaches a well-formed return. -/
theorem line560_not_a_valid_return :
    isValidReturnStmt line560Toks = false
    ∧ isValidReturnStmt line628Toks = true :=
  ⟨rfl, rfl⟩

/-- C3 (counterexample): with the initial distance inside the gate
(0.3 nm against a 5 Angstrom threshold), minimization successful and the
MD stage raising, the worker returns a failed result with `final_structure`
`None` — not a MINIMIZED result carrying the minimized structure. -/
theorem md_failure_gives_failed_result :
    (run_single_sample_worker 1 mdFailEnv 5).result.simulation_type = .failed
    ∧ (run_single_sample_worker 1 mdFailEnv 5).result.final_structure = none
    ∧ (run_single_sample_worker 1 mdFailEnv 5).result.error = some "mdrun error"
    ∧ ¬((run_single_sample_worker 1 mdFailEnv 5).result.simulation_type = .EM_only
        ∧ (run_single_sample_worker 1 mdFailEnv 5).result.final_structure
            = some "sample_1/em.gro") := by
  simp [run_single_sample_worker, mdFailEnv, gate_03_within_5A, failedResult]

/-- C3 (amended): when the gate admits the sample, minimization succeeds and
the MD stage then raises, the worker does invoke MD but returns the failed
dict — `final_structure` `None`, every distance infinite, the error message
recorded — rather than degrading to the minimization result. -/
theorem md_failure_returns_failed_dict (id : ℕ) (d0 dem : EDist ℚ) (e : String)
    (gate : ℚ) (hgate : d0.scale10.le (.val gate) = true) :
    run_single_sample_worker id ⟨.ok d0, .ok dem, .raised e⟩ gate
      = ⟨failedResult id e, true⟩ := by
  simp [run_single_sample_worker, hgate]

/-- C3 (witness): the amended statement evaluated on the concrete
MD-failure environment. -/
theorem md_failure_returns_failed_dict_witness :
    run_single_sample_worker 1 mdFailEnv 5 = ⟨failedResult 1 "mdrun error", true⟩ :=
  md_failure_returns_failed_dict 1 (.val (3 / 10)) (.val (2 / 10)) "mdrun error" 5
    gate_03_within_5A

/-- C5: with the initial distance computed and minimization successful, the
worker invokes the MD stage iff `initial_distance * 10` is at most the gate
in Angstroms; above the gate it stops as an EM-only (MINIMIZED) sample
keeping the minimized structure and never invokes MD; and the gate decision
is unchanged under any change of the post-minimization distance. -/
theorem md_gate_on_initial_distance (id : ℕ) (d0 dem : EDist ℚ)
    (m : StageRes (EDist ℚ)) (gate : ℚ) :
    ((run_single_sample_worker id ⟨.ok d0, .ok dem, m⟩ gate).mdInvoked
        = d0.scale10.le (.val gate))
    ∧ (d0.scale10.le (.val gate) = false →
        (run_single_sample_worker id ⟨.ok d0, .ok dem, m⟩ gate).result.simulation_type
            = .EM_only
        ∧ (run_single_sample_worker id ⟨.ok d0, .ok dem, m⟩ gate).result.final_structure
            = some (sampleDirOf id ++ "/em.gro")
        ∧ (run_single_sample_worker id ⟨.ok d0, .ok dem, m⟩ gate).mdInvoked = false)
    ∧ (∀ dem2 : EDist ℚ,
        (run_single_sample_worker id ⟨.ok d0, .ok dem2, m⟩ gate).mdInvoked
          = (run_single_sample_worker id ⟨.ok d0, .ok dem, m⟩ gate).mdInvoked) := by
  by_cases hg : d0.scale10.le (.val gate) = true
  · cases m <;> simp [run_single_sample_worker, hg]
  · cases m <;> simp [run_single_sample_worker, hg]

theorem chain1_groForty : chain1Atoms groFortyApart "A" = [⟨"A", 0, 0, 0⟩] := rfl

theorem chain2_groForty : chain2Atoms groFortyApart "A" "B" = [⟨"B", 40, 0, 0⟩] := rfl

theorem sqSep_groForty : sqSep groFortyApart "A" "B" = 1600 := by
  rw [sqSep, chain1_groForty, chain2_groForty]
  norm_num [meanX, meanY, meanZ]

theorem sqSep_groEighty : sqSep groEightyApart "A" "B" = 6400 := by
  have e1 : chain1Atoms groEightyApart "A" = [⟨"A", 0, 0, 0⟩] := rfl
  have e2 : chain2Atoms groEightyApart "A" "B" = [⟨"B", 80, 0, 0⟩] := rfl
  rw [sqSep, e1, e2]
  norm_num [meanX, meanY, meanZ]

theorem sqSep_pdbForty : sqSep pdbFortyApart "A" "B" = 1600 := by
  have e1 : chain1Atoms pdbFortyApart "A" = [⟨"A", 0, 0, 0⟩] := rfl
  have e2 : chain2Atoms pdbFortyApart "A" "B" = [⟨"B", 40, 0, 0⟩] := rfl
  rw [sqSep, e1, e2]
  norm_num [meanX, meanY, meanZ]

theorem dist_groupCenter_eq_sqrt_sqSep (s : StructureFile) (c1 c2 : String) :
    dist (groupCenter (chain1Atoms s c1)) (groupCenter (chain2Atoms s c1 c2))
      = Real.sqrt ((sqSep s c1 c2 : ℚ) : ℝ) := by
  rw [EuclideanSpace.dist_eq, Fin.sum_univ_three]
  congr 1
  simp only [groupCenter, WithLp.equiv_symm_pi_apply, Matrix.cons_val_zero,
    Matrix.cons_val_one, Matrix.head_cons, Matrix.cons_val_two, Matrix.tail_cons,
    Real.dist_eq, sq_abs, sqSep]
  push_cast
  ring_nf

/-- C4 (amended): for a PDB snapshot with both atom groups non-empty the
distance operation returns the Euclidean distance between the two groups'
unweighted mean coordinates divided by 10 (the fixed Angstrom-to-nm
factor); for a GRO snapshot it does not compute a geometric distance at
all but returns the fixed placeholder 1.0 regardless of the coordinates. -/
theorem distance_euclidean_pdb_placeholder_gro :
    (∀ (s : StructureFile) (c1 c2 : String), s.format = .pdb →
      (chain1Atoms s c1).isEmpty = false → (chain2Atoms s c1 c2).isEmpty = false →
      calculate_distance_from_structure s c1 c2
        = .val (dist (groupCenter (chain1Atoms s c1))
            (groupCenter (chain2Atoms s c1 c2)) / 10))
    ∧ (∀ (s : StructureFile) (c1 c2 : String), s.format = .gro →
      calculate_distance_from_structure s c1 c2 = .val 1) := by
  constructor
  · intro s c1 c2 hf h1 h2
    unfold calculate_distance_from_structure
    rw [hf, dist_groupCenter_eq_sqrt_sqSep]
    simp [h1, h2]
  · intro s c1 c2 hf
    unfold calculate_distance_from_structure
    rw [hf]

/-- C4 (counterexample): no fixed scale factor can make the GRO branch the
claimed norm conversion — two GRO snapshots whose group centers are 40 and
80 native length units apart both evaluate to the constant 1.0. -/
theorem gro_distance_not_euclidean :
    ¬ ∃ scale : ℝ, ∀ (s : StructureFile) (c1 c2 : String), s.format = .gro →
      (chain1Atoms s c1).isEmpty = false → (chain2Atoms s c1 c2).isEmpty = false →
      calculate_distance_from_structure s c1 c2
        = .val (Real.sqrt ((sqSep s c1 c2 : ℚ) : ℝ) / scale) := by
  rintro ⟨c, h⟩
  have h40 := h groFortyApart "A" "B" rfl rfl rfl
  have h80 := h groEightyApart "A" "B" rfl rfl rfl
  have e40 : calculate_distance_from_structure groFortyApart "A" "B" = .val 1 := rfl
  have e80 : calculate_distance_from_structure groEightyApart "A" "B" = .val 1 := rfl
  rw [e40, sqSep_groForty] at h40
  rw [e80, sqSep_groEighty] at h80
  have s40 : Real.sqrt ((1600 : ℚ) : ℝ) = 40 := by
    rw [show ((1600 : ℚ) : ℝ) = 40 ^ 2 by norm_num,
      Real.sqrt_sq (by norm_num : (0 : ℝ) ≤ 40)]
  have s80 : Real.sqrt ((6400 : ℚ) : ℝ) = 80 := by
    rw [show ((6400 : ℚ) : ℝ) = 80 ^ 2 by norm_num,
      Real.sqrt_sq (by norm_num : (0 : ℝ) ≤ 80)]
  rw [s40] at h40
  rw [s80] at h80
  have hv40 : (1 : ℝ) = 40 / c := by injection h40
  have hv80 : (1 : ℝ) = 80 / c := by injection h80
  have hc : c ≠ 0 := by
    intro h0
    rw [h0, div_zero] at hv40
    norm_num at hv40
  have : (40 : ℝ) / c = 80 / c := hv40.symm.trans hv80
  rw [div_eq_div_iff hc hc] at this
  have : (40 : ℝ) = 80 := by
    have hcc := mul_right_cancel₀ hc this
    exact hcc
  norm_num at this

/-- C4 (witness): the spec's synthetic unit-normalization structure — a PDB
snapshot with the two groups exactly 40 Angstroms apart reports 4 nm. -/
theorem distance_euclidean_pdb_witness :
    calculate_distance_from_structure pdbFortyApart "A" "B" = .val 4 := by
  rw [distance_euclidean_pdb_placeholder_gro.1 pdbFortyApart "A" "B" rfl rfl rfl,
    dist_groupCenter_eq_sqrt_sqSep, sqSep_pdbForty]
  have s40 : Real.sqrt ((1600 : ℚ) : ℝ) = 40 := by
    rw [show ((1600 : ℚ) : ℝ) = 40 ^ 2 by norm_num,
      Real.sqrt_sq (by norm_num : (0 : ℝ) ≤ 40)]
  rw [s40]
  norm_num

/-- C9 (counterexample): a PDB structure whose second group resolves to zero
atoms makes the distance operation return the sentinel `float('inf')` — no
`EmptyGroupError` exists to be raised — and a sample carrying the infinite
distances is not rejected in selection: it keeps a non-null minimized
structure, stays in the valid list and is selected as best when it is the
only sample. -/
theorem empty_group_sample_still_selected :
    calculate_distance_from_structure emptyChainPdb "A" "B" = .inf
    ∧ (run_single_sample_worker 1 infDistEnv 5).result.final_structure
        = some "sample_1/em.gro"
    ∧ (run_single_sample_worker 1 infDistEnv 5).result.final_distance = .inf
    ∧ (run_single_sample_worker 1 infDistEnv 5).result.simulation_type = .EM_only
    ∧ select_best [(run_single_sample_worker 1 infDistEnv 5).result]
        = some (run_single_sample_worker 1 infDistEnv 5).result :=
  ⟨rfl, rfl, rfl, rfl, rfl⟩

/-- C9 (amended): an empty atom group makes the distance operation return
`float('inf')` as a sentinel value instead of raising an exception; a
sample whose final distance is infinite is selected only when every valid
sample's final distance is infinite (so it never beats a finite-distance
sample), but it remains a valid non-FAILED candidate: a batch consisting of
it alone selects it. -/
theorem empty_group_inf_sentinel :
    (∀ (s : StructureFile) (c1 c2 : String), s.format = .pdb →
      ((chain1Atoms s c1).isEmpty = true ∨ (chain2Atoms s c1 c2).isEmpty = true) →
      calculate_distance_from_structure s c1 c2 = .inf)
    ∧ (∀ (l : List SampleResult) (r x : SampleResult), select_best l = some r →
      r.final_distance = .inf → x ∈ validResults l → x.final_distance = .inf)
    ∧ (∀ r : SampleResult, r.final_structure.isSome = true →
      select_best [r] = some r) := by
  refine ⟨?_, ?_, ?_⟩
  · intro s c1 c2 hf h
    unfold calculate_distance_from_structure
    rw [hf]
    rcases h with h | h <;> simp [h]
  · intro l r x hsel hinf hx
    have hmin := (pyMinBy_mem_min _ _ _ hsel).2 x hx
    rw [hinf] at hmin
    cases hfd : x.final_distance with
    | val q =>
      rw [hfd] at hmin
      simp [EDist.le] at hmin
    | inf => rfl
  · intro r hr
    have hv : validResults [r] = [r] := by
      simp [validResults, hr]
    simp [select_best, hv, pyMinBy]

/-- C9 (witness): the amended statement evaluated on the concrete
empty-group structure and on a concrete one-sample batch. -/
theorem empty_group_inf_sentinel_witness :
    calculate_distance_from_structure emptyChainPdb "A" "B" = .inf
    ∧ select_best [tieA] = some tieA :=
  ⟨empty_group_inf_sentinel.1 emptyChainPdb "A" "B" rfl (Or.inr rfl),
   empty_group_inf_sentinel.2.2 tieA rfl⟩

/-- C5 (witness): the spec's gate round-trip — initial distance 0.8 nm
against a 5 Angstrom gate skips MD and stays EM-only, initial distance
0.3 nm invokes MD. -/
theorem md_gate_on_initial_distance_witness :
    (run_single_sample_worker 1
        ⟨.ok (.val (8 / 10)), .ok (.val (6 / 10)), .ok (.val (4 / 10))⟩ 5).mdInvoked = false
    ∧ (run_single_sample_worker 1
        ⟨.ok (.val (8 / 10)), .ok (.val (6 / 10)), .ok (.val (4 / 10))⟩ 5).result.simulation_type
        = .EM_only
    ∧ (run_single_sample_worker 2
        ⟨.ok (.val (3 / 10)), .ok (.val (6 / 10)), .ok (.val (4 / 10))⟩ 5).mdInvoked = true := by
  refine ⟨?_, ?_, ?_⟩
  · exact ((md_gate_on_initial_distance 1 (.val (8 / 10)) (.val (6 / 10))
      (.ok (.val (4 / 10))) 5).2.1 gate_08_outside_5A).2.2
  · exact ((md_gate_on_initial_distance 1 (.val (8 / 10)) (.val (6 / 10))
      (.ok (.val (4 / 10))) 5).2.1 gate_08_outside_5A).1
  · exact (md_gate_on_initial_distance 2 (.val (3 / 10)) (.val (6 / 10))
      (.ok (.val (4 / 10))) 5).1.trans gate_03_within_5A

/-- C6: when every sample of a batch has failed (`final_structure` `None`)
the iteration returns the pair `(None, float('inf'))`, and a loop step that
receives this pair breaks out immediately: exactly one more iteration call
is made, no further iteration is attempted, and the loop exit classifies as
ABORTED. -/
theorem all_failed_aborts (batch : List SampleResult)
    (hall : ∀ r ∈ batch, r.final_structure = none) :
    run_multi_sample_iteration_post batch = (none, .inf)
    ∧ ∀ (oracle : ℕ → String → Option String × EDist ℚ) (thr : ℚ) (fuel iter : ℕ)
        (v : MainVars),
        oracle iter v.current = run_multi_sample_iteration_post batch →
        mainLoop oracle thr (fuel + 1) iter v
          = { v with best_structure := some none, best_distance := some .inf,
                     calls := v.calls + 1, brokeOnNone := true }
        ∧ termStateOf (mainLoop oracle thr (fuel + 1) iter v) = .ABORTED := by
  have hvalid : validResults batch = [] := by
    rw [validResults, List.filter_eq_nil_iff]
    intro a ha
    simp [hall a ha]
  have hpost : run_multi_sample_iteration_post batch = (none, .inf) := by
    simp [run_multi_sample_iteration_post, select_best, hvalid, pyMinBy]
  refine ⟨hpost, ?_⟩
  intro oracle thr fuel iter v horacle
  rw [hpost] at horacle
  constructor
  · simp only [mainLoop]
    rw [horacle]
  · simp only [mainLoop]
    rw [horacle]
    simp [termStateOf]

/-- C6 (witness): the concrete all-failed batch drives a concrete loop state
to the ABORTED exit. -/
theorem all_failed_aborts_witness :
    run_multi_sample_iteration_post allFailedBatch = (none, .inf)
    ∧ termStateOf (mainLoop allFailOracle 1 (9 + 1) 1 initVars) = .ABORTED := by
  have h := all_failed_aborts allFailedBatch (by decide)
  exact ⟨h.1, (h.2 allFailOracle 1 9 1 initVars rfl).2⟩

/-- C7: an iteration whose best distance is at or below the convergence
threshold sets the convergence flag and stops with exactly that one
iteration call, classified CONVERGED; and when every iteration's best
distance exceeds the threshold, a loop with N remaining iterations makes
exactly N calls, never converges or aborts, and classifies as EXHAUSTED. -/
theorem convergence_and_exhaustion :
    (∀ (oracle : ℕ → String → Option String × EDist ℚ) (thr : ℚ) (fuel iter : ℕ)
        (v : MainVars) (s : String) (d : EDist ℚ),
        oracle iter v.current = (some s, d) → d.le (.val thr) = true →
        v.brokeOnNone = false →
        (mainLoop oracle thr (fuel + 1) iter v).convergence = true
        ∧ (mainLoop oracle thr (fuel + 1) iter v).calls = v.calls + 1
        ∧ termStateOf (mainLoop oracle thr (fuel + 1) iter v) = .CONVERGED)
    ∧ (∀ (oracle : ℕ → String → Option String × EDist ℚ)
        (F : ℕ → String → String) (D : ℕ → String → EDist ℚ) (thr : ℚ),
        (∀ j t, oracle j t = (some (F j t), D j t)) →
        (∀ j t, (D j t).le (.val thr) = false) →
        ∀ (N iter : ℕ) (v : MainVars), v.convergence = false → v.brokeOnNone = false →
        (mainLoop oracle thr N iter v).calls = v.calls + N
        ∧ (mainLoop oracle thr N iter v).convergence = false
        ∧ (mainLoop oracle thr N iter v).brokeOnNone = false
        ∧ termStateOf (mainLoop oracle thr N iter v) = .EXHAUSTED) := by
  constructor
  · intro oracle thr fuel iter v s d ho hle hb
    refine ⟨?_, ?_, ?_⟩ <;>
      (simp only [mainLoop]; rw [ho]; simp [hle, termStateOf, hb])
  · intro oracle F D thr ho hd N
    induction N with
    | zero =>
      intro iter v hc hb
      refine ⟨?_, ?_, ?_, ?_⟩ <;> simp only [mainLoop]
      · omega
      · exact hc
      · exact hb
      · simp [termStateOf, hb, hc]
    | succ n ih =>
      intro iter v hc hb
      have ho2 := ho iter v.current
      have hd2 := hd iter v.current
      obtain ⟨ih1, ih2, ih3, ih4⟩ := ih (iter + 1)
        { v with current := F iter v.current,
                 best_structure := some (some (F iter v.current)),
                 best_distance := some (D iter v.current),
                 best_distance_angstrom := some (D iter v.current).scale10,
                 calls := v.calls + 1 }
        (by simp [hc]) (by simp [hb])
      refine ⟨?_, ?_, ?_, ?_⟩ <;>
        (simp only [mainLoop]; rw [ho2]; simp only [hd2, Bool.false_eq_true, if_false])
      · rw [ih1]
        simp
        omega
      · exact ih2
      · exact ih3
      · exact ih4

/-- C7 (witness): a converging first iteration (best 0.3 nm against a
0.5 nm threshold) classifies CONVERGED after one call; a run of three
iterations all at 2 nm against a 1 nm threshold makes exactly three calls
and classifies EXHAUSTED. -/
theorem convergence_and_exhaustion_witness :
    termStateOf (mainLoop convOracle (5 / 10) (9 + 1) 1 initVars) = .CONVERGED
    ∧ (mainLoop convOracle (5 / 10) (9 + 1) 1 initVars).calls = initVars.calls + 1
    ∧ (mainLoop farOracle 1 3 1 initVars).calls = initVars.calls + 3
    ∧ termStateOf (mainLoop farOracle 1 3 1 initVars) = .EXHAUSTED := by
  have h1 := convergence_and_exhaustion.1 convOracle (5 / 10) 9 1 initVars
    "iter_best.gro" (.val (3 / 10)) rfl conv_03_within_05 rfl
  have h2 := convergence_and_exhaustion.2 farOracle (fun _ _ => "far_best.gro")
    (fun _ _ => .val 2) 1 (fun _ _ => rfl)
    (fun _ _ => show (EDist.val 2).le (EDist.val 1) = false by decide) 3 1 initVars rfl rfl
  exact ⟨h1.2.2, h1.2.1, h2.1, h2.2.2.2⟩

/-- C8 (counterexample): a run whose very first iteration converges (best
distance 0.3 nm, threshold 0.5 nm): the selected best is recorded in the
`best_structure` local, but `current_structure` still holds the run's
initial input — the update of `current_structure` to the selected best is
skipped on the converging iteration. -/
theorem current_not_updated_on_convergence :
    (mainRun convOracle (5 / 10) 10 "init.gro").convergence = true
    ∧ (mainRun convOracle (5 / 10) 10 "init.gro").best_structure
        = some (some "iter_best.gro")
    ∧ (mainRun convOracle (5 / 10) 10 "init.gro").current = "init.gro"
    ∧ "init.gro" ≠ "iter_best.gro" := by
  refine ⟨?_, ?_, ?_, by decide⟩ <;>
    · rw [show mainRun convOracle (5 / 10) 10 "init.gro"
          = mainLoop convOracle (5 / 10) (9 + 1) 1 initVars from rfl]
      simp only [mainLoop]
      rw [show convOracle 1 initVars.current
          = (some "iter_best.gro", .val (3 / 10)) from rfl]
      simp [conv_03_within_05, initVars]

/-- C8 (amended): `current_structure` is updated to the iteration's selected
best only on the fall-through path, i.e. when the iteration neither aborts
nor converges; on a converging iteration the update is skipped and
`current_structure` keeps its previous value, while the selected best is
still recorded in the `best_structure` local used by the final report. -/
theorem current_updated_only_without_convergence :
    (∀ (oracle : ℕ → String → Option String × EDist ℚ) (thr : ℚ) (fuel iter : ℕ)
        (v : MainVars) (s : String) (d : EDist ℚ),
      oracle iter v.current = (some s, d) → d.le (.val thr) = false →
      mainLoop oracle thr (fuel + 1) iter v
        = mainLoop oracle thr fuel (iter + 1)
            { v with current := s, best_structure := some (some s),
                     best_distance := some d,
                     best_distance_angstrom := some d.scale10,
                     calls := v.calls + 1 })
    ∧ (∀ (oracle : ℕ → String → Option String × EDist ℚ) (thr : ℚ) (fuel iter : ℕ)
        (v : MainVars) (s : String) (d : EDist ℚ),
      oracle iter v.current = (some s, d) → d.le (.val thr) = true →
      (mainLoop oracle thr (fuel + 1) iter v).current = v.current
      ∧ (mainLoop oracle thr (fuel + 1) iter v).best_structure = some (some s)) := by
  constructor
  · intro oracle thr fuel iter v s d ho hle
    simp only [mainLoop]
    rw [ho]
    simp [hle]
  · intro oracle thr fuel iter v s d ho hle
    constructor <;>
      (simp only [mainLoop]; rw [ho]; simp [hle])

/-- C8 (witness): the amended statement evaluated at a concrete converging
step and at a concrete non-converging step. -/
theorem current_updated_only_without_convergence_witness :
    (mainLoop convOracle (5 / 10) (9 + 1) 1 initVars).current = initVars.current
    ∧ mainLoop farOracle 1 (2 + 1) 1 initVars
        = mainLoop farOracle 1 2 2
            { initVars with current := "far_best.gro",
                            best_structure := some (some "far_best.gro"),
                            best_distance := some (.val 2),
                            best_distance_angstrom := some (EDist.val 2).scale10,
                            calls := initVars.calls + 1 } := by
  constructor
  · exact (current_updated_only_without_convergence.2 convOracle (5 / 10) 9 1 initVars
      "iter_best.gro" (.val (3 / 10)) rfl conv_03_within_05).1
  · exact current_updated_only_without_convergence.1 farOracle 1 2 1 initVars
      "far_best.gro" (.val 2) rfl (by decide)

/-- C10: a run whose very first iteration yields a null best does not reach
a well-formed final report: the final block references
`best_distance_angstrom`, which was never assigned on that path, so the
model run ends in `UnboundLocalError` rather than a report naming a
terminal state. -/
theorem first_iteration_abort_crashes_report :
    sumd_main allFailOracle (5 / 10) 10 "init.gro"
      = .unboundLocalError "best_distance_angstrom"
    ∧ run_multi_sample_iteration_post allFailedBatch = (none, .inf) := by
  constructor
  · rw [show sumd_main allFailOracle (5 / 10) 10 "init.gro"
        = finalReport (mainLoop allFailOracle (5 / 10) (9 + 1) 1 initVars) from rfl]
    simp only [mainLoop]
    rw [show allFailOracle 1 initVars.current = (none, .inf) from rfl]
    rfl
  · rfl

end SuMD
